import Mathlib

/-!
Verification of the UPnPLib core (UPnPService.h/.cpp, UPnPDevice.h/.cpp)
against its natural-language specification.

The C++ sources are shallowly embedded: C strings become `List Char`,
bounded buffer writes become explicit truncation (`strlcpy`, `snprintf`
clamping), the device/service tree becomes plain structures with explicit
state passing, and the dispatch surface (`WebContext`) becomes the list of
registered route paths.  `rand()` output is passed in explicitly as a list
of naturals.
-/

namespace lsc

/-! ## Constants (UPnPService.h / UPnPDevice.h) -/

def TARGET_SIZE : Nat := 32
def NAME_SIZE : Nat := 32
def MAX_SERVICES : Nat := 8
def MAX_DEVICES : Nat := 8
def UUID_SIZE : Nat := 37

/-! ## C string primitives -/

/-- C `strlcpy(dst, src, size)`: copies at most `size - 1` characters of
`src` and always null-terminates, so the stored C string is the first
`size - 1` characters of `src`. -/
def strlcpy (src : List Char) (size : Nat) : List Char := src.take (size - 1)

/-- C `snprintf(buffer, size, ...)` stores at most `size - 1` characters of
the formatted output and always null-terminates. -/
def snprintfClamp (size : Nat) (formatted : List Char) : List Char :=
  formatted.take (size - 1)

/-! ## UPnPObject::setTarget (UPnPService.cpp lines 52-55)

`if( target[0] == '/' ) strlcpy(_target, target+1, sizeof(_target));
 else strlcpy(_target, target, sizeof(_target));`
with `_target : char[TARGET_SIZE]`. -/

def setTarget (target : List Char) : List Char :=
  if target.head? = some '/' then strlcpy target.tail TARGET_SIZE
  else strlcpy target TARGET_SIZE

/-! ## UPnPObject::getPath (UPnPService.cpp lines 101-112)

The C++ walks the parent pointers of the object: with no parent the path is
`"/" + target`; with a parent whose own parent is null it is
`"/parentTarget/target"`; otherwise `"/grandparentTarget/parentTarget/target"`.
`chain` lists the targets from the object itself upward
(self, parent, grandparent, ...). -/

def getPath (size : Nat) (chain : List (List Char)) : List Char :=
  match chain with
  | [] => []
  | [t] => snprintfClamp size (['/'] ++ t)
  | [t, d] => snprintfClamp size (['/'] ++ d ++ ['/'] ++ t)
  | t :: d :: r :: _ => snprintfClamp size (['/'] ++ r ++ ['/'] ++ d ++ ['/'] ++ t)

/-! ## UPnPObject::encodePath (UPnPService.cpp lines 127-140)

The loop writes into `buffer` at position `j`, testing `j < bufferSize`
once per source character; a reserved character writes the three bytes
`'%' d1 d2` at `j`, `j+1`, `j+2`.  The embedding records every single
buffer write as an (index, character) pair so that out-of-bounds writes
are visible. -/

/-- The escape table of `encodePath`: the two hex characters emitted after
`'%'` for each reserved character (note `'+'` maps to `"20"` in the code). -/
def escapeOf (c : Char) : Option (Char × Char) :=
  if c = '/' then some ('2', 'F')
  else if c = '?' then some ('3', 'F')
  else if c = '=' then some ('3', 'D')
  else if c = '&' then some ('2', '6')
  else if c = '+' then some ('2', '0')
  else none

/-- The `for` loop of `encodePath`: returns the list of (index, character)
writes performed and the final value of `j`. -/
def encodeLoop (bufferSize : Nat) : List Char → Nat → List (Nat × Char) × Nat
  | [], j => ([], j)
  | c :: rest, j =>
    if j < bufferSize then
      match escapeOf c with
      | some (d1, d2) =>
        let r := encodeLoop bufferSize rest (j + 3)
        ((j, '%') :: (j + 1, d1) :: (j + 2, d2) :: r.1, r.2)
      | none =>
        let r := encodeLoop bufferSize rest (j + 1)
        ((j, c) :: r.1, r.2)
    else ([], j)

/-- All writes performed by `encodePath(buffer, bufferSize, path)`: the loop
writes followed by the null terminator (`buffer[j] = 0` if `j < bufferSize`,
else `buffer[bufferSize-1] = 0`). -/
def encodePathWrites (bufferSize : Nat) (path : List Char) : List (Nat × Char) :=
  let r := encodeLoop bufferSize path 0
  r.1 ++ [(if r.2 < bufferSize then r.2 else bufferSize - 1, Char.ofNat 0)]

/-- Apply a list of (index, character) writes to a buffer in order. -/
def applyWrites : List (Nat × Char) → (Nat → Char) → (Nat → Char)
  | [], buf => buf
  | w :: ws, buf => applyWrites ws (fun k => if k = w.1 then w.2 else buf k)

/-- Read the C string stored in `buf` starting at index `i`, stopping at a
null byte or after `fuel` characters. -/
def readCString (buf : Nat → Char) : Nat → Nat → List Char
  | _, 0 => []
  | i, fuel + 1 =>
    if buf i = Char.ofNat 0 then [] else buf i :: readCString buf (i + 1) fuel

/-- `encodePath(buffer, bufferSize, path)` with initial buffer contents
`buf0`: the C string left in the buffer after all writes. -/
def encodePath (bufferSize : Nat) (path : List Char) (buf0 : Nat → Char) : List Char :=
  readCString (applyWrites (encodePathWrites bufferSize path) buf0) 0 bufferSize

/-- Per-character output of `encodePath` when there is room: the escape
sequence for a reserved character, the character itself otherwise. -/
def encOne (c : Char) : List Char :=
  match escapeOf c with
  | some (d1, d2) => ['%', d1, d2]
  | none => [c]

/-! ## UUID utilities (UPnPDevice.cpp lines 36-75) -/

/-- `getRandomBytes(a, len)`: `a[i] = (unsigned char) rand() % 255`.  The
cast to `unsigned char` reduces `rand()` modulo 256 before the `% 255`.
The `rand()` outputs are supplied as the list `rs`. -/
def getRandomBytes (rs : List Nat) (len : Nat) : List Nat :=
  (List.range len).map (fun i => rs.getD i 0 % 256 % 255)

/-- Lowercase hex digit, as produced by `sprintf("%02x", ...)`. -/
def hexDigit (n : Nat) : Char :=
  if n < 10 then Char.ofNat (48 + n) else Char.ofNat (87 + n)

/-- Two lowercase hex characters of a byte (`sprintf("%02x", b)`). -/
def hex2 (b : Nat) : List Char := [hexDigit (b / 16 % 16), hexDigit (b % 16)]

/-- `generateUUID(s)` (UPnPDevice.cpp lines 38-53): 16 random bytes, the
version nibble of byte 6 forced to 4, the variant bits of byte 8 forced to
`10xxxxxx`, rendered as lowercase hex in the 8-4-4-4-12 grouping. -/
def generateUUID (rs : List Nat) : List Char :=
  let u0 := getRandomBytes rs 16
  let u := (u0.set 6 ((u0.getD 6 0 &&& 0x0F) ||| 0x40)).set 8
             ((u0.getD 8 0 &&& 0x3F) ||| 0x80)
  let b := fun i => u.getD i 0
  hex2 (b 0) ++ hex2 (b 1) ++ hex2 (b 2) ++ hex2 (b 3) ++ ['-'] ++
  hex2 (b 4) ++ hex2 (b 5) ++ ['-'] ++ hex2 (b 6) ++ hex2 (b 7) ++ ['-'] ++
  hex2 (b 8) ++ hex2 (b 9) ++ ['-'] ++ hex2 (b 10) ++ hex2 (b 11) ++
  hex2 (b 12) ++ hex2 (b 13) ++ hex2 (b 14) ++ hex2 (b 15)

/-- C `isxdigit`: `0-9`, `a-f`, `A-F`. -/
def isxdigit (c : Char) : Bool :=
  (('0' ≤ c) && (c ≤ '9')) || (('a' ≤ c) && (c ≤ 'f')) || (('A' ≤ c) && (c ≤ 'F'))

/-- `isValidUUID(uuidStr)` (UPnPDevice.cpp lines 61-75): length exactly
`UUID_SIZE - 1 = 36`, `'-'` at positions 8, 13, 18, 23, a hex digit at
every other position. -/
def isValidUUID (u : List Char) : Bool :=
  if u.length ≠ UUID_SIZE - 1 then false
  else (List.range (UUID_SIZE - 1)).all (fun i =>
    if i = 8 ∨ i = 13 ∨ i = 18 ∨ i = 23 then u.getD i ' ' == '-'
    else isxdigit (u.getD i ' '))

/-! ## The device/service tree

C++ objects become structures; the parent pointer, which is only ever set
by `addService`/`addDevice` and never cleared, becomes the flag `parent`;
the containment arrays `_services`/`_devices` with their counters become
lists (length = counter).  The dispatch surface `WebContext` is modelled
as the list of paths registered via `svr->on(path, callback)`; each
registered callback is determined by the node whose path is the key, so
route keys are what the claims are about. -/

structure UPnPService where
  target : List Char
  parent : Bool
deriving DecidableEq

structure UPnPDevice where
  target : List Char
  uuid : List Char
  services : List UPnPService
  parent : Bool
deriving DecidableEq

structure RootDevice where
  target : List Char
  uuid : List Char
  services : List UPnPService
  devices : List UPnPDevice
  wired : Bool
deriving DecidableEq

abbrev WebContext := List (List Char)

/-- `UPnPService(target)` constructor: `UPnPObject(target)` calls
`setTarget(target)`. -/
def mkService (t : List Char) : UPnPService :=
  { target := setTarget t, parent := false }

/-- `UPnPService()` default constructor: target `"service"`. -/
def mkServiceDefault : UPnPService := mkService ['s','e','r','v','i','c','e']

/-- `UPnPDevice(target)` constructor: target via `setTarget`, `_uuid` empty. -/
def mkDevice (t : List Char) : UPnPDevice :=
  { target := setTarget t, uuid := [], services := [], parent := false }

/-- `UPnPDevice()` default constructor: `UPnPObject()` leaves the target
empty, `_uuid` empty. -/
def mkDeviceDefault : UPnPDevice :=
  { target := [], uuid := [], services := [], parent := false }

/-- `RootDevice(target)` constructor: generates a UUID from the random
source `rs`. -/
def mkRoot (t : List Char) (rs : List Nat) : RootDevice :=
  { target := setTarget t, uuid := generateUUID rs, services := [],
    devices := [], wired := false }

/-- `RootDevice()` default constructor: target `"root"`. -/
def mkRootDefault (rs : List Nat) : RootDevice := mkRoot ['r','o','o','t'] rs

/-- `UPnPDevice::setUUID(uuid)` (UPnPDevice.cpp lines 120-126): store via
`strlcpy(_uuid, uuid.c_str(), sizeof(_uuid))` only when `isValidUUID`
passes; report the validity. -/
def UPnPDevice.setUUID (d : UPnPDevice) (u : List Char) : UPnPDevice × Bool :=
  if isValidUUID u then ({ d with uuid := strlcpy u UUID_SIZE }, true)
  else (d, false)

/-! ## Paths as registered during setup

`UPnPService::setup` and `UPnPDevice::setup` both compute `getPath` into a
100-byte buffer and register it with `svr->on`. -/

/-- Path of a device attached to the root: chain device → root. -/
def devicePath (rTarget dTarget : List Char) : List Char :=
  getPath 100 [dTarget, rTarget]

/-- Path of a service held by a device attached to the root:
chain service → device → root. -/
def servicePath (rTarget dTarget sTarget : List Char) : List Char :=
  getPath 100 [sTarget, dTarget, rTarget]

/-- Path of a service held directly by the root: chain service → root. -/
def rootServicePath (rTarget sTarget : List Char) : List Char :=
  getPath 100 [sTarget, rTarget]

/-- `UPnPDevice::setup(svr)` (UPnPDevice.cpp lines 109-115) for a device
attached to the root: register the device's own path, then `setup` each
held service in order (each registers its own path). -/
def UPnPDevice.setup (rTarget : List Char) (d : UPnPDevice) (svr : WebContext) :
    WebContext :=
  d.services.foldl (fun acc s => acc ++ [servicePath rTarget d.target s.target])
    (svr ++ [devicePath rTarget d.target])

/-- Default target `"serviceN"` / `"deviceN"`:
`sprintf(_target, "service%d", _numServices)`. -/
def autoTarget (stem : List Char) (n : Nat) : List Char :=
  stem ++ Nat.toDigits 10 n

def serviceStem : List Char := ['s','e','r','v','i','c','e']
def deviceStem : List Char := ['d','e','v','i','c','e']

/-- `UPnPDevice::addService(svc)` (UPnPDevice.cpp lines 132-147) for a
device that is NOT attached to a RootDevice (then `rootDevice()` is NULL
and the late-binding block does nothing): capacity check, default target,
append, set the parent back-reference.  Returns the updated device and the
updated service; the C++ function returns `void` — no failure signal. -/
def UPnPDevice.addService (d : UPnPDevice) (svc : UPnPService) :
    UPnPDevice × UPnPService :=
  if d.services.length < MAX_SERVICES then
    let svc1 := if svc.target.length = 0 then
                  { svc with target := autoTarget serviceStem d.services.length }
                else svc
    let svc2 := { svc1 with parent := true }
    ({ d with services := d.services ++ [svc2] }, svc2)
  else (d, svc)

/-- `UPnPDevice::addService(svc)` called on the device at index `i` of a
RootDevice's `_devices`.  Identical to `UPnPDevice.addService`, plus the
late-binding block: `rootDevice()` is the root (non-NULL since the device
is attached), and when `rootDevice()->getContext() != NULL` (modelled by
`r.wired`) the new service is immediately `setup`, registering its path. -/
def RootDevice.addServiceTo (r : RootDevice) (ctx : WebContext) (i : Nat)
    (svc : UPnPService) : RootDevice × UPnPService × WebContext :=
  match r.devices.get? i with
  | none => (r, svc, ctx)
  | some d =>
    if d.services.length < MAX_SERVICES then
      let svc1 := if svc.target.length = 0 then
                    { svc with target := autoTarget serviceStem d.services.length }
                  else svc
      let svc2 := { svc1 with parent := true }
      let d2 := { d with services := d.services ++ [svc2] }
      let r2 := { r with devices := r.devices.set i d2 }
      let ctx2 := if r.wired then ctx ++ [servicePath r.target d2.target svc2.target]
                  else ctx
      (r2, svc2, ctx2)
    else (r, svc, ctx)

/-- `UPnPDevice::addService(svc)` called on the RootDevice itself
(`rootDevice()` returns `this`): the service's path has chain
service → root. -/
def RootDevice.addService (r : RootDevice) (ctx : WebContext) (svc : UPnPService) :
    RootDevice × UPnPService × WebContext :=
  if r.services.length < MAX_SERVICES then
    let svc1 := if svc.target.length = 0 then
                  { svc with target := autoTarget serviceStem r.services.length }
                else svc
    let svc2 := { svc1 with parent := true }
    let r2 := { r with services := r.services ++ [svc2] }
    let ctx2 := if r.wired then ctx ++ [rootServicePath r.target svc2.target]
                else ctx
    (r2, svc2, ctx2)
  else (r, svc, ctx)

/-- `RootDevice::addDevice(dvc)` (UPnPDevice.cpp lines 265-279): capacity
check, default target, generate a UUID if the device's UUID is empty,
append, set the parent back-reference; late binding: when
`getContext() != NULL` (modelled by `r.wired`) call `dvc->setup`, which
registers the device's path and each of its services' paths.  The C++
function returns `void` — no failure signal. -/
def RootDevice.addDevice (r : RootDevice) (ctx : WebContext) (dvc : UPnPDevice)
    (rs : List Nat) : RootDevice × UPnPDevice × WebContext :=
  if r.devices.length < MAX_DEVICES then
    let d1 := if dvc.target.length = 0 then
                { dvc with target := autoTarget deviceStem r.devices.length }
              else dvc
    let d2 := if d1.uuid.length = 0 then { d1 with uuid := generateUUID rs } else d1
    let d3 := { d2 with parent := true }
    let r2 := { r with devices := r.devices ++ [d3] }
    let ctx2 := if r.wired then UPnPDevice.setup r.target d3 ctx else ctx
    (r2, d3, ctx2)
  else (r, dvc, ctx)

def stylesCssPath : List Char := ['/','s','t','y','l','e','s','.','c','s','s']
def slashPath : List Char := ['/']

/-- `RootDevice::setup(svr)` (UPnPDevice.cpp lines 251-258):
`UPnPDevice::setup(svr)` registers the root's own path and its services'
paths; then `_context = svr` (the root becomes wired); then the fixed
routes `"/styles.css"` and `"/"`; then each held device's `setup`. -/
def RootDevice.setup (r : RootDevice) (svr : WebContext) : RootDevice × WebContext :=
  let svr1 := r.services.foldl
                (fun acc s => acc ++ [rootServicePath r.target s.target])
                (svr ++ [getPath 100 [r.target]])
  let r2 := { r with wired := true }
  let svr2 := svr1 ++ [stylesCssPath, slashPath]
  let svr3 := r.devices.foldl (fun acc d => UPnPDevice.setup r.target d acc) svr2
  (r2, svr3)

/-! ## Runtime type identification (UPnPService.h lines 45-56, 100-111)

`ClassType` assigns a process-wide unique integer per concrete class via a
static counter; the four classes of the library receive distinct IDs
(one static-initialization order is modelled; the claims depend only on
distinctness).  `isClassType` on an instance checks its own tag and then
the single-inheritance chain; `as(t)` returns the instance when the check
passes and NULL (`none`) otherwise. -/

structure ClassType where
  typeID : Nat
deriving DecidableEq

/-- `ClassType::isClassType(t)`: NULL check, then ID equality. -/
def ClassType.isClassType (self : ClassType) (t : Option ClassType) : Bool :=
  match t with
  | some ct => self.typeID == ct.typeID
  | none => false

def UPnPService.classType : ClassType := ⟨1⟩
def UPnPObject.classType : ClassType := ⟨2⟩
def UPnPDevice.classType : ClassType := ⟨3⟩
def RootDevice.classType : ClassType := ⟨4⟩

/-- `UPnPObject`'s `BASE_TYPE_CHECK`: only its own tag matches. -/
def UPnPObject.isClassType (t : Option ClassType) : Bool :=
  UPnPObject.classType.isClassType t

/-- `UPnPService`'s `DERIVED_TYPE_CHECK(UPnPObject)`. -/
def UPnPService.isClassType (t : Option ClassType) : Bool :=
  UPnPService.classType.isClassType t || UPnPObject.isClassType t

/-- `UPnPDevice`'s `DERIVED_TYPE_CHECK(UPnPObject)`. -/
def UPnPDevice.isClassType (t : Option ClassType) : Bool :=
  UPnPDevice.classType.isClassType t || UPnPObject.isClassType t

/-- `RootDevice`'s `DERIVED_TYPE_CHECK(UPnPDevice)`. -/
def RootDevice.isClassType (t : Option ClassType) : Bool :=
  RootDevice.classType.isClassType t || UPnPDevice.isClassType t

/-- `as(t)` from `DEFINE_RTTI` on a `UPnPService` instance. -/
def UPnPService.as (s : UPnPService) (t : Option ClassType) : Option UPnPService :=
  if UPnPService.isClassType t then some s else none

/-- `as(t)` from `DEFINE_RTTI` on a `UPnPDevice` instance. -/
def UPnPDevice.as (d : UPnPDevice) (t : Option ClassType) : Option UPnPDevice :=
  if UPnPDevice.isClassType t then some d else none

/-- `as(t)` from `DEFINE_RTTI` on a `RootDevice` instance. -/
def RootDevice.as (r : RootDevice) (t : Option ClassType) : Option RootDevice :=
  if RootDevice.isClassType t then some r else none

/-! ## Concrete inputs used by several claims -/

/-- A fixed random source: 16 zero bytes. -/
def rsZero : List Nat := List.replicate 16 0

/-- Example tree of claim C1: RootDevice with target `"root"`, a device
with target `"d"` attached via `addDevice`. -/
def c1Tree := (mkRoot "root".toList rsZero).addDevice [] (mkDevice "d".toList) rsZero

/-- The root of the C1 example after attaching the device. -/
def c1Root : RootDevice := c1Tree.1

/-- The C1 example after also attaching a service with target `"s"` to the
device via `addService`. -/
def c1WithSvc := c1Root.addServiceTo [] 0 (mkService "s".toList)

/-- The attached device of the C1 example. -/
def c1Dev : UPnPDevice := c1WithSvc.1.devices.getD 0 mkDeviceDefault

/-- The attached service of the C1 example. -/
def c1Svc : UPnPService := c1WithSvc.2.1

/-- Input of the encodePath example of claim C8. -/
def c8Input : List Char := "/a?b=c&d+e".toList

/-- Expected output of the encodePath example of claim C8. -/
def c8Output : List Char := "%2Fa%3Fb%3Dc%26d%20e".toList

/-! ## Helper lemmas -/

/-- Folding "append one element" over a list appends the mapped list. -/
theorem foldl_append_map {α : Type} (f : α → List Char) :
    ∀ (l : List α) (acc : List (List Char)),
      l.foldl (fun a s => a ++ [f s]) acc = acc ++ l.map f := by
  intro l
  induction l with
  | nil => intro acc; simp
  | cons x xs ih => intro acc; simp [ih]

/-- When the buffer bound is never hit, the characters written by the
`encodePath` loop are exactly the concatenated per-character encodings. -/
theorem encodeLoop_map_snd (bufferSize : Nat) :
    ∀ (path : List Char) (j : Nat), j + 3 * path.length ≤ bufferSize →
      (encodeLoop bufferSize path j).1.map Prod.snd = (path.map encOne).flatten := by
  intro path
  induction path with
  | nil => intro j _; simp [encodeLoop]
  | cons c rest ih =>
    intro j h
    have hj : j < bufferSize := by
      simp [List.length_cons] at h; omega
    have hrest : j + 3 + 3 * rest.length ≤ bufferSize := by
      simp [List.length_cons] at h; omega
    have hrest1 : j + 1 + 3 * rest.length ≤ bufferSize := by omega
    cases hesc : escapeOf c with
    | some p =>
      cases p with
      | mk d1 d2 =>
        simp [encodeLoop, hj, hesc, encOne, ih (j + 3) hrest]
    | none =>
      simp [encodeLoop, hj, hesc, encOne, ih (j + 1) hrest1]

/-- `head?` of a nonempty take is `head?` of the list. -/
theorem head?_take (l : List Char) (n : Nat) :
    (l.take (n + 1)).head? = l.head? := by
  cases l <;> simp

/-! ## Claim C1 (corrected)

The claim states that for the tree root(target "root") → device("d") →
service("s"), `getPath(service) = "/d/s"` and `getPath(device) = "/d"`.
`UPnPObject::getPath` includes the root's target, so the computed paths
are `"/root/d/s"` and `"/root/d"`. -/

/-- C1 counterexample: in the 3-level example tree built with `addDevice`
and `addService`, the service's `getPath` (chain service → device → root)
is not `"/d/s"`. -/
theorem getPath_service_not_claimed :
    getPath 100 [c1Svc.target, c1Dev.target, c1WithSvc.1.target] ≠ "/d/s".toList := by
  decide

/-- C1 amended: for the 3-level tree root(target "root") → device("d") →
service("s") built with `addDevice`/`addService`, `getPath` on the service
yields `"/root/d/s"` and `getPath` on the device yields `"/root/d"` — the
root's target is included. -/
theorem getPath_amended :
    getPath 100 [c1Svc.target, c1Dev.target, c1WithSvc.1.target] = "/root/d/s".toList
    ∧ getPath 100 [c1Dev.target, c1WithSvc.1.target] = "/root/d".toList := by
  decide

/-! ## Claim C2 (code bug)

The claim states `encodePath(buffer, bufferSize, path)` writes at most
`bufferSize` bytes for every `bufferSize ≥ 1`.  The loop only tests
`j < bufferSize` before writing a three-byte percent escape at positions
`j`, `j+1`, `j+2`, so an escape starting at the last writable position
runs two bytes past the buffer. -/

/-- C2: with `bufferSize = 1` and `path = "/"`, the code writes `'%'`,
`'2'`, `'F'` at indices 0, 1, 2 — two bytes beyond the one-byte buffer —
and then the null terminator at index 0; so not every write lands below
`bufferSize`. -/
theorem encodePath_overflow :
    encodePathWrites 1 ['/'] = [(0, '%'), (1, '2'), (2, 'F'), (0, Char.ofNat 0)]
    ∧ ¬ (∀ w ∈ encodePathWrites 1 ['/'], w.1 < 1) := by
  decide

/-! ## Claim C8 (confirmed)

`encodePath` percent-encodes exactly `/ ? = & +` (with `'+'` emitted as
`"%20"`) and passes every other byte through unchanged. -/

/-- C8: when the buffer is large enough (`3·|path|` bounds the output, and
the loop bound is never hit), the characters written by the loop are the
concatenation of the per-character encodings; a character other than
`/ ? = & +` encodes to itself, and the five reserved characters encode to
`%2F %3F %3D %26 %20`; concretely, `encodePath("/a?b=c&d+e")` leaves
`"%2Fa%3Fb%3Dc%26d%20e"` in a 64-byte buffer regardless of its initial
contents. -/
theorem encodePath_spec (path : List Char) (bufferSize : Nat)
    (h : 3 * path.length ≤ bufferSize) :
    (encodeLoop bufferSize path 0).1.map Prod.snd = (path.map encOne).flatten
    ∧ (∀ c, c ≠ '/' → c ≠ '?' → c ≠ '=' → c ≠ '&' → c ≠ '+' → encOne c = [c])
    ∧ encOne '/' = ['%', '2', 'F'] ∧ encOne '?' = ['%', '3', 'F']
    ∧ encOne '=' = ['%', '3', 'D'] ∧ encOne '&' = ['%', '2', '6']
    ∧ encOne '+' = ['%', '2', '0']
    ∧ (∀ buf0 : Nat → Char, encodePath 64 c8Input buf0 = c8Output) := by
  refine ⟨encodeLoop_map_snd bufferSize path 0 (by omega), ?_, rfl, rfl, rfl, rfl,
    rfl, fun buf0 => rfl⟩
  intro c h1 h2 h3 h4 h5
  simp [encOne, escapeOf, h1, h2, h3, h4, h5]

/-- C8 witness: the hypothesis holds at `path = "/a?b=c&d+e"`,
`bufferSize = 64`, where the theorem gives the loop characters. -/
theorem encodePath_spec_witness :
    3 * c8Input.length ≤ 64
    ∧ (encodeLoop 64 c8Input 0).1.map Prod.snd = (c8Input.map encOne).flatten :=
  ⟨by decide, (encodePath_spec c8Input 64 (by decide)).1⟩

/-! ## Claim C10 (corrected)

`setTarget` strips a single leading `'/'` and truncates to
`TARGET_SIZE - 1 = 31` characters, so `"/foo"` and `"foo"` store the same
target; but an input starting with two slashes keeps its second slash, so
the stored target CAN begin with `'/'`. -/

/-- C10 counterexample: `setTarget("//x")` stores `"/x"`, whose first
character is `'/'` — refuting "getTarget() never returns a string
beginning with '/'". -/
theorem setTarget_double_slash :
    (setTarget "//x".toList).head? = some '/' := by decide

/-- C10 amended: `setTarget(t)` stores `t` with a single leading `'/'`
removed if present, truncated to at most 31 characters; for an input with
at most one leading slash the stored target does not begin with `'/'`,
and `"/" + t` and `t` store identical targets and give identical computed
paths. -/
theorem setTarget_spec (t : List Char) (h : t.head? ≠ some '/') :
    setTarget ('/' :: t) = setTarget t
    ∧ setTarget t = t.take 31
    ∧ (setTarget t).head? ≠ some '/'
    ∧ (setTarget ('/' :: t)).head? ≠ some '/'
    ∧ (∀ u : List Char, setTarget u = (if u.head? = some '/' then u.tail else u).take 31)
    ∧ (∀ rt : List Char,
        getPath 100 [setTarget ('/' :: t), rt] = getPath 100 [setTarget t, rt]) := by
  have hgen : ∀ u : List Char,
      setTarget u = (if u.head? = some '/' then u.tail else u).take 31 := by
    intro u
    by_cases hu : u.head? = some '/' <;> simp [setTarget, strlcpy, TARGET_SIZE, hu]
  have h1 : setTarget ('/' :: t) = setTarget t := by
    rw [hgen, hgen]
    simp [h]
  have h2 : setTarget t = t.take 31 := by rw [hgen]; simp [h]
  refine ⟨h1, h2, ?_, ?_, hgen, fun rt => by rw [h1]⟩
  · rw [h2]
    show (t.take (30 + 1)).head? ≠ some '/'
    rw [head?_take]
    exact h
  · rw [h1, h2]
    show (t.take (30 + 1)).head? ≠ some '/'
    rw [head?_take]
    exact h

/-- C10 witness: at `t = "foo"`, `"/foo"` and `"foo"` store the same
target, which is `"foo"` and does not begin with `'/'`. -/
theorem setTarget_spec_witness :
    ("foo".toList.head? ≠ some '/')
    ∧ setTarget ('/' :: "foo".toList) = setTarget "foo".toList
    ∧ setTarget "foo".toList = "foo".toList.take 31 :=
  ⟨by decide, (setTarget_spec "foo".toList (by decide)).1,
    (setTarget_spec "foo".toList (by decide)).2.1⟩

/-! ## Claim C3 (corrected)

The claim states that a plain Device attached with an empty UUID keeps an
empty UUID.  `RootDevice::addDevice` executes
`if( strlen( dvc->_uuid ) == 0 ) generateUUID(dvc->_uuid);`, so the
attached plain device receives a generated UUID. -/

/-- A generated UUID always renders as 36 characters. -/
theorem generateUUID_length (rs : List Nat) : (generateUUID rs).length = 36 := by
  simp [generateUUID, hex2]

/-- C3 counterexample: attaching a default-constructed plain device (empty
UUID) to a root via `addDevice` leaves it with the generated — non-empty —
UUID. -/
theorem addDevice_uuid_not_empty :
    ((mkRootDefault rsZero).addDevice [] mkDeviceDefault rsZero).2.1.uuid
      = "00000000-0000-4000-8000-000000000000".toList
    ∧ ((mkRootDefault rsZero).addDevice [] mkDeviceDefault rsZero).2.1.uuid ≠ [] := by
  decide

/-- C3 amended: plain Devices do carry UUIDs.  `addDevice` assigns the
freshly generated 36-character UUID to a device attached with an empty
UUID, and preserves a non-empty UUID. -/
theorem addDevice_uuid_amended (r : RootDevice) (ctx : WebContext) (d : UPnPDevice)
    (rs : List Nat) (hroom : r.devices.length < MAX_DEVICES) :
    (d.uuid = [] →
      (r.addDevice ctx d rs).2.1.uuid = generateUUID rs
      ∧ ((r.addDevice ctx d rs).2.1.uuid).length = 36)
    ∧ (d.uuid ≠ [] → (r.addDevice ctx d rs).2.1.uuid = d.uuid) := by
  unfold RootDevice.addDevice
  rw [if_pos hroom]
  by_cases ht : d.target.length = 0 <;>
    [skip; skip] <;>
  · constructor
    · intro hu
      simp [ht, hu, generateUUID_length]
    · intro hu
      have hul : ¬ d.uuid.length = 0 := by
        simpa [List.length_eq_zero] using hu
      simp [ht, hul]

/-- C3 amended witness: the root holds no device yet, and the attached
empty-UUID device receives the generated UUID. -/
theorem addDevice_uuid_amended_witness :
    ((mkRootDefault rsZero).devices.length < MAX_DEVICES ∧ mkDeviceDefault.uuid = [])
    ∧ ((mkRootDefault rsZero).addDevice [] mkDeviceDefault rsZero).2.1.uuid
        = generateUUID rsZero
    ∧ (((mkRootDefault rsZero).addDevice [] mkDeviceDefault rsZero).2.1.uuid).length = 36 :=
  ⟨⟨by decide, by decide⟩,
    (addDevice_uuid_amended (mkRootDefault rsZero) [] mkDeviceDefault rsZero
      (by decide)).1 (by decide)⟩

/-! ## Claim C5 (confirmed)

Attaching beyond the fixed capacity (`MAX_SERVICES = MAX_DEVICES = 8`) is
a complete no-op: the collection, the rejected node (target, UUID, parent
back-reference) and the dispatch surface are unchanged; both functions
return `void` in C++, so no failure signal exists. -/

/-- C5: `addService` on a device holding `MAX_SERVICES = 8` services and
`addDevice` on a root holding `MAX_DEVICES = 8` devices leave every piece
of state — including the rejected node and the route mapping — unchanged. -/
theorem capacity_noop (d : UPnPDevice) (svc : UPnPService) (r : RootDevice)
    (ctx : WebContext) (dvc : UPnPDevice) (rs : List Nat)
    (hd : d.services.length = MAX_SERVICES) (hr : r.devices.length = MAX_DEVICES) :
    UPnPDevice.addService d svc = (d, svc)
    ∧ r.addDevice ctx dvc rs = (r, dvc, ctx) := by
  constructor
  · unfold UPnPDevice.addService
    rw [if_neg (by rw [hd]; exact Nat.lt_irrefl _)]
  · unfold RootDevice.addDevice
    rw [if_neg (by rw [hr]; exact Nat.lt_irrefl _)]

/-- A device already holding 8 services. -/
def full8Dev : UPnPDevice :=
  { target := ['d'], uuid := [], parent := false,
    services := (List.range 8).map
      (fun n => { target := autoTarget serviceStem n, parent := true }) }

/-- A root already holding 8 devices. -/
def full8Root : RootDevice :=
  { target := ['r'], uuid := [], services := [], wired := false,
    devices := (List.range 8).map
      (fun n => { target := autoTarget deviceStem n, uuid := [],
                  services := [], parent := true }) }

/-- C5 witness: at a device with 8 services and a root with 8 devices, a
further attach changes nothing. -/
theorem capacity_noop_witness :
    (full8Dev.services.length = MAX_SERVICES ∧ full8Root.devices.length = MAX_DEVICES)
    ∧ UPnPDevice.addService full8Dev mkServiceDefault = (full8Dev, mkServiceDefault)
    ∧ full8Root.addDevice [] mkDeviceDefault rsZero = (full8Root, mkDeviceDefault, []) :=
  ⟨⟨by decide, by decide⟩,
    (capacity_noop full8Dev mkServiceDefault full8Root [] mkDeviceDefault rsZero
      (by decide) (by decide)).1,
    (capacity_noop full8Dev mkServiceDefault full8Root [] mkDeviceDefault rsZero
      (by decide) (by decide)).2⟩

/-! ## Claim C6 (confirmed) -/

/-- The spec's wording of UUID validity: length exactly 36, dashes at
character positions 8, 13, 18, 23, a hex digit at every other position. -/
def uuidSpecValid (u : List Char) : Prop :=
  u.length = 36 ∧ ∀ i, i < 36 →
    ((i = 8 ∨ i = 13 ∨ i = 18 ∨ i = 23) → u.getD i ' ' = '-')
    ∧ (¬(i = 8 ∨ i = 13 ∨ i = 18 ∨ i = 23) → isxdigit (u.getD i ' ') = true)

/-- `isValidUUID` accepts exactly the strings described by the spec. -/
theorem isValidUUID_iff (u : List Char) : isValidUUID u = true ↔ uuidSpecValid u := by
  unfold isValidUUID uuidSpecValid
  have h36 : UUID_SIZE - 1 = 36 := by norm_num [UUID_SIZE]
  rw [h36]
  by_cases hlen : u.length = 36
  · rw [if_neg (by simp [hlen])]
    rw [List.all_eq_true]
    constructor
    · intro hall
      refine ⟨hlen, fun i hi => ?_⟩
      have hp := hall i (List.mem_range.mpr hi)
      constructor
      · intro hc
        rw [if_pos hc] at hp
        exact beq_iff_eq.mp hp
      · intro hnc
        rw [if_neg hnc] at hp
        exact hp
    · rintro ⟨_, hq⟩ i hi
      have hi' := List.mem_range.mp hi
      by_cases hc : i = 8 ∨ i = 13 ∨ i = 18 ∨ i = 23
      · rw [if_pos hc]
        exact beq_iff_eq.mpr ((hq i hi').1 hc)
      · rw [if_neg hc]
        exact (hq i hi').2 hc
  · rw [if_pos (by simp [hlen])]
    simp [hlen]

/-- C6: `setUUID(candidate)` stores the candidate and returns `true`
exactly when the candidate is a well-formed UUID (length 36, dashes at
positions 8, 13, 18, 23, hex digits elsewhere); otherwise it returns
`false` and the stored UUID is unchanged. -/
theorem setUUID_spec (d : UPnPDevice) (u : List Char) :
    (isValidUUID u = true ↔ uuidSpecValid u)
    ∧ (isValidUUID u = true → d.setUUID u = ({ d with uuid := u }, true))
    ∧ (isValidUUID u = false → d.setUUID u = (d, false)) := by
  refine ⟨isValidUUID_iff u, ?_, ?_⟩
  · intro hv
    have hlen : u.length = 36 := ((isValidUUID_iff u).mp hv).1
    have htake : strlcpy u UUID_SIZE = u := by
      show u.take (UUID_SIZE - 1) = u
      rw [show UUID_SIZE - 1 = 36 by norm_num [UUID_SIZE], ← hlen]
      exact List.take_length u
    unfold UPnPDevice.setUUID
    rw [if_pos hv, htake]
  · intro hv
    unfold UPnPDevice.setUUID
    rw [if_neg (by simp [hv])]

/-- The valid example UUID of the spec. -/
def validUUIDex : List Char := "123e4567-e89b-42d3-a456-426614174000".toList

/-- C6 witness: the spec's example UUID is accepted and stored; the string
`"x"` is rejected and the prior UUID kept. -/
theorem setUUID_spec_witness :
    (isValidUUID validUUIDex = true ∧ isValidUUID ['x'] = false)
    ∧ mkDeviceDefault.setUUID validUUIDex = ({ mkDeviceDefault with uuid := validUUIDex }, true)
    ∧ mkDeviceDefault.setUUID ['x'] = (mkDeviceDefault, false) :=
  ⟨⟨by decide, by decide⟩,
    (setUUID_spec mkDeviceDefault validUUIDex).2.1 (by decide),
    (setUUID_spec mkDeviceDefault ['x']).2.2 (by decide)⟩

/-! ## Claim C7 (confirmed)

A node attached with an empty target is assigned
`"service<N>"`/`"device<N>"` with `N` the 0-based sibling position at
attach time (the count before insertion); assigned targets of attached
nodes are non-empty, and auto-assigned targets at distinct positions are
distinct. -/

/-- C7: `addService`/`addDevice` assign `"service<N>"`/`"device<N>"` to an
empty-target node, with `N` the sibling count before insertion; every
added node's target is non-empty; and auto-assigned targets at the (at
most 8) distinct sibling positions are pairwise distinct. -/
theorem autoTarget_spec (d : UPnPDevice) (svc : UPnPService) (r : RootDevice)
    (ctx : WebContext) (dvc : UPnPDevice) (rs : List Nat)
    (hts : svc.target = []) (hd : d.services.length < MAX_SERVICES)
    (htd : dvc.target = []) (hr : r.devices.length < MAX_DEVICES) :
    (UPnPDevice.addService d svc).2.target = autoTarget serviceStem d.services.length
    ∧ (r.addDevice ctx dvc rs).2.1.target = autoTarget deviceStem r.devices.length
    ∧ (∀ n : Nat, autoTarget serviceStem n ≠ [] ∧ autoTarget deviceStem n ≠ [])
    ∧ (∀ m n : Fin 8, m ≠ n →
        autoTarget serviceStem m.val ≠ autoTarget serviceStem n.val
        ∧ autoTarget deviceStem m.val ≠ autoTarget deviceStem n.val)
    ∧ (∀ (d' : UPnPDevice) (svc' : UPnPService), d'.services.length < MAX_SERVICES →
        (UPnPDevice.addService d' svc').2.target ≠ []) := by
  refine ⟨?_, ?_, ?_, by decide, ?_⟩
  · unfold UPnPDevice.addService
    rw [if_pos hd]
    simp [hts]
  · unfold RootDevice.addDevice
    rw [if_pos hr]
    by_cases hu : dvc.uuid.length = 0 <;> simp [htd, hu]
  · intro n
    constructor <;> simp [autoTarget, serviceStem, deviceStem]
  · intro d' svc' hd'
    unfold UPnPDevice.addService
    rw [if_pos hd']
    by_cases ht' : svc'.target.length = 0
    · simp [ht', autoTarget, serviceStem]
    · simp only [ht', if_false]
      simpa [List.length_eq_zero] using ht'

/-- C7 witness: attaching an empty-target service to an empty device and an
empty-target device to a fresh root assigns `"service0"` and `"device0"`. -/
theorem autoTarget_spec_witness :
    ((mkService []).target = [] ∧ mkDeviceDefault.services.length < MAX_SERVICES
      ∧ mkDeviceDefault.target = [] ∧ (mkRootDefault rsZero).devices.length < MAX_DEVICES)
    ∧ (UPnPDevice.addService mkDeviceDefault (mkService [])).2.target
        = autoTarget serviceStem 0
    ∧ ((mkRootDefault rsZero).addDevice [] mkDeviceDefault rsZero).2.1.target
        = autoTarget deviceStem 0 :=
  ⟨⟨by decide, by decide, by decide, by decide⟩,
    (autoTarget_spec mkDeviceDefault (mkService []) (mkRootDefault rsZero) []
      mkDeviceDefault rsZero (by decide) (by decide) (by decide) (by decide)).1,
    (autoTarget_spec mkDeviceDefault (mkService []) (mkRootDefault rsZero) []
      mkDeviceDefault rsZero (by decide) (by decide) (by decide) (by decide)).2.1⟩

/-! ## Claim C9 (confirmed)

`as(t)` returns the instance exactly when `isClassType(t)` holds — i.e.
when `t` is the instance's own class tag or an ancestor tag along the
single-inheritance chain — and NULL (`none`) otherwise. -/

/-- C9: for every node and tag, `as(t)` is the node itself when
`isClassType(t)` holds and `none` otherwise; `isClassType` accepts exactly
the node's own tag and its ancestors' tags; in particular a service's
`as(UPnPDevice tag)` is `none` while its `as(UPnPService tag)` and
`as(UPnPObject tag)` are the service itself. -/
theorem rtti_as_spec (s : UPnPService) (d : UPnPDevice) (r : RootDevice)
    (t : Option ClassType) :
    (UPnPService.isClassType t = true → s.as t = some s)
    ∧ (UPnPService.isClassType t = false → s.as t = none)
    ∧ (UPnPDevice.isClassType t = true → d.as t = some d)
    ∧ (UPnPDevice.isClassType t = false → d.as t = none)
    ∧ (RootDevice.isClassType t = true → r.as t = some r)
    ∧ (RootDevice.isClassType t = false → r.as t = none)
    ∧ (UPnPService.isClassType t = true ↔
        (t = some UPnPService.classType ∨ t = some UPnPObject.classType))
    ∧ (RootDevice.isClassType t = true ↔
        (t = some RootDevice.classType ∨ t = some UPnPDevice.classType
          ∨ t = some UPnPObject.classType))
    ∧ s.as (some UPnPDevice.classType) = none
    ∧ s.as (some UPnPService.classType) = some s
    ∧ s.as (some UPnPObject.classType) = some s := by
  refine ⟨?_, ?_, ?_, ?_, ?_, ?_, ?_, ?_, rfl, rfl, rfl⟩
  · intro h; simp [UPnPService.as, h]
  · intro h; simp [UPnPService.as, h]
  · intro h; simp [UPnPDevice.as, h]
  · intro h; simp [UPnPDevice.as, h]
  · intro h; simp [RootDevice.as, h]
  · intro h; simp [RootDevice.as, h]
  · cases t with
    | none =>
      simp [UPnPService.isClassType, UPnPObject.isClassType, ClassType.isClassType]
    | some ct =>
      cases ct with
      | mk n =>
        simp [UPnPService.isClassType, UPnPObject.isClassType, ClassType.isClassType,
          UPnPService.classType, UPnPObject.classType, ClassType.mk.injEq]
        omega
  · cases t with
    | none =>
      simp [RootDevice.isClassType, UPnPDevice.isClassType, UPnPObject.isClassType,
        ClassType.isClassType]
    | some ct =>
      cases ct with
      | mk n =>
        simp [RootDevice.isClassType, UPnPDevice.isClassType, UPnPObject.isClassType,
          ClassType.isClassType, RootDevice.classType, UPnPDevice.classType,
          UPnPObject.classType, ClassType.mk.injEq]
        omega

/-- C9 witness: for a concrete service, `as` of the service tag yields the
service, `as` of the device tag yields `none`. -/
theorem rtti_as_spec_witness :
    (UPnPService.isClassType (some UPnPService.classType) = true
      ∧ UPnPService.isClassType (some UPnPDevice.classType) = false)
    ∧ (mkService ['s']).as (some UPnPService.classType) = some (mkService ['s'])
    ∧ (mkService ['s']).as (some UPnPDevice.classType) = none :=
  ⟨⟨by decide, by decide⟩,
    (rtti_as_spec (mkService ['s']) mkDeviceDefault full8Root
      (some UPnPService.classType)).1 (by decide),
    (rtti_as_spec (mkService ['s']) mkDeviceDefault full8Root
      (some UPnPDevice.classType)).2.1 (by decide)⟩

/-! ## Claim C4 (confirmed)

Late binding: when `addDevice` attaches a device to a root whose
`_context` is set (the root is wired), the device is immediately `setup`,
which registers its path and — transitively — the path of each service it
holds; when the root is not wired, `addDevice`/`addService` register
nothing. -/

/-- The routes registered by `UPnPDevice::setup`: the device's own path
followed by its services' paths. -/
theorem setup_routes (rTarget : List Char) (d : UPnPDevice) (c : WebContext) :
    UPnPDevice.setup rTarget d c
      = c ++ [devicePath rTarget d.target]
        ++ d.services.map (fun s => servicePath rTarget d.target s.target) := by
  unfold UPnPDevice.setup
  rw [foldl_append_map]

/-- C4: on a wired root with room, `addDevice` leaves the new device's path
— and the path of every service the device holds — registered in the
dispatch mapping when it returns; on an unwired root, `addDevice`,
`addService` on an attached device, and `addService` on the root itself
all leave the mapping unchanged. -/
theorem lateBinding_registration (r : RootDevice) (ctx : WebContext)
    (dvc : UPnPDevice) (rs : List Nat)
    (hw : r.wired = true) (hroom : r.devices.length < MAX_DEVICES) :
    devicePath r.target (r.addDevice ctx dvc rs).2.1.target ∈ (r.addDevice ctx dvc rs).2.2
    ∧ (∀ s ∈ (r.addDevice ctx dvc rs).2.1.services,
        servicePath r.target (r.addDevice ctx dvc rs).2.1.target s.target
          ∈ (r.addDevice ctx dvc rs).2.2)
    ∧ (∀ (r' : RootDevice) (ctx' : WebContext) (d' : UPnPDevice) (rs' : List Nat),
        r'.wired = false → (r'.addDevice ctx' d' rs').2.2 = ctx')
    ∧ (∀ (r' : RootDevice) (ctx' : WebContext) (i : Nat) (svc : UPnPService),
        r'.wired = false → (r'.addServiceTo ctx' i svc).2.2 = ctx')
    ∧ (∀ (r' : RootDevice) (ctx' : WebContext) (svc : UPnPService),
        r'.wired = false → (r'.addService ctx' svc).2.2 = ctx') := by
  have hkey : (r.addDevice ctx dvc rs).2.2
      = ctx ++ [devicePath r.target (r.addDevice ctx dvc rs).2.1.target]
        ++ (r.addDevice ctx dvc rs).2.1.services.map
            (fun s => servicePath r.target (r.addDevice ctx dvc rs).2.1.target s.target) := by
    unfold RootDevice.addDevice
    rw [if_pos hroom]
    simp [hw, setup_routes]
  refine ⟨?_, ?_, ?_, ?_, ?_⟩
  · rw [hkey]
    simp
  · intro s hs
    rw [hkey]
    simp only [List.mem_append, List.mem_map]
    right
    exact ⟨s, hs, rfl⟩
  · intro r' ctx' d' rs' hw'
    unfold RootDevice.addDevice
    by_cases hcap : r'.devices.length < MAX_DEVICES
    · rw [if_pos hcap]
      simp [hw']
    · rw [if_neg hcap]
  · intro r' ctx' i svc hw'
    unfold RootDevice.addServiceTo
    cases r'.devices.get? i with
    | none => rfl
    | some dd =>
      dsimp only
      by_cases hcap : dd.services.length < MAX_SERVICES
      · rw [if_pos hcap]
        simp [hw']
      · rw [if_neg hcap]
  · intro r' ctx' svc hw'
    unfold RootDevice.addService
    by_cases hcap : r'.services.length < MAX_SERVICES
    · rw [if_pos hcap]
      simp [hw']
    · rw [if_neg hcap]

/-- A root that has been wired (`RootDevice::setup` has run). -/
def c4Wired : RootDevice := ((mkRootDefault rsZero).setup []).1

/-- The dispatch mapping after wiring `c4Wired`. -/
def c4Ctx : WebContext := ((mkRootDefault rsZero).setup []).2

/-- C4 witness: attaching a device with target `"d"` to the wired root
registers its path in the mapping immediately. -/
theorem lateBinding_registration_witness :
    (c4Wired.wired = true ∧ c4Wired.devices.length < MAX_DEVICES)
    ∧ devicePath c4Wired.target
        (c4Wired.addDevice c4Ctx (mkDevice "d".toList) rsZero).2.1.target
        ∈ (c4Wired.addDevice c4Ctx (mkDevice "d".toList) rsZero).2.2 :=
  ⟨⟨by decide, by decide⟩,
    (lateBinding_registration c4Wired c4Ctx (mkDevice "d".toList) rsZero
      (by decide) (by decide)).1⟩

end lsc
